import Mathlib

/-!
Shallow embedding of the eCourts case-status API (src/main.py): the request
validators, the date handling used by the route handlers, and the HTTP routes,
together with theorems checking the specification's claims against them.

Modelling conventions:
* Python `str.strip`, `str.upper` and the regexes are modelled over ASCII
  characters (the inputs of interest are ASCII).
* `datetime.strptime(v, "%d-%m-%Y")` is modelled after CPython's `_strptime`
  table: `%d` matches `3[01]|[12]\d|0[1-9]|[1-9]`, `%m` matches
  `1[0-2]|0[1-9]|[1-9]`, `%Y` matches exactly four digits, the whole string
  must be consumed ("unconverted data remains" otherwise), and constructing
  the `datetime` additionally requires the calendar date to be valid and the
  year to be at least 1.  Every two-character day/month alternative ends in a
  digit while the character required next is the literal `-`, so committed
  (non-backtracking) matching coincides with the regex's backtracking
  semantics.
* Wall-clock time is an explicit parameter (`Now`): a civil date plus the
  seconds elapsed since midnight.  `datetime` subtraction is modelled at
  second granularity; `timedelta.days` is floor division by 86400.
* The outbound `httpx` POST performed by both fetch functions is an explicit
  `NetOutcome` parameter: the portal's HTTP status code, a timeout, or some
  other client failure.
* FastAPI semantics: a `field_validator` raising `ValueError` makes request
  parsing fail with `RequestValidationError`, rendered by FastAPI's default
  handler as HTTP 422 whose body is a `detail` list; Starlette resolves the
  handler by walking the exception's class hierarchy, and the registered
  default for `RequestValidationError` is found before the application's
  `ValueError` handler, so the latter is not consulted for request parsing.
  A raised `HTTPException` is rendered as its status code with body
  `detail: message`.  Pydantic reports all failing fields at once; only the
  first failing validator's message is kept in this model.
-/

/-- ASCII decimal digit, the model of the regex class `\d`. -/
def isPyDigit (c : Char) : Bool := 48 ≤ c.toNat && c.toNat ≤ 57

/-- ASCII uppercase letter, the regex class `[A-Z]`. -/
def isPyUpperAlpha (c : Char) : Bool := 65 ≤ c.toNat && c.toNat ≤ 90

/-- ASCII whitespace stripped by Python `str.strip()`. -/
def isPyWhitespace (c : Char) : Bool :=
  c = ' ' || c = '\t' || c = '\n' || c = '\r' || c.toNat = 11 || c.toNat = 12

/-- Python `str.upper()` on one ASCII character. -/
def pyUpperChar (c : Char) : Char :=
  if 97 ≤ c.toNat && c.toNat ≤ 122 then Char.ofNat (c.toNat - 32) else c

/-- Python `str.strip()`. -/
def pyStrip (s : String) : String :=
  String.mk (((s.data.dropWhile isPyWhitespace).reverse.dropWhile isPyWhitespace).reverse)

/-- Python `str.upper()`. -/
def pyUpper (s : String) : String := String.mk (s.data.map pyUpperChar)

/-- Numeric value of an ASCII digit. -/
def digitVal (c : Char) : Nat := c.toNat - 48

/-- Full match of the CNR pattern used at src/main.py:19 and src/main.py:226:
four uppercase letters followed by twelve digits. -/
def cnrMatch (s : String) : Bool :=
  s.data.length == 16 && (s.data.take 4).all isPyUpperAlpha && (s.data.drop 4).all isPyDigit

/-- Full match of the case-type pattern at src/main.py:37: one or more
uppercase letters. -/
def caseTypeMatch (s : String) : Bool :=
  !s.data.isEmpty && s.data.all isPyUpperAlpha

def cnrErrMsg : String :=
  "Invalid CNR format. Expected format: 4 letters + 12 digits (e.g., DLSW010093242025)"

/-- `CaseDetailsCNR.validate_cnr` (src/main.py:15-23): strip, uppercase,
require the CNR pattern. -/
def validate_cnr (v : String) : Except String String :=
  let w := pyUpper (pyStrip v)
  if cnrMatch w then Except.ok w else Except.error cnrErrMsg

def caseTypeErrMsg : String := "Case type should contain only letters (e.g., ARBTN)"

/-- `CaseDetailsByNumber.validate_case_type` (src/main.py:33-39). -/
def validate_case_type (v : String) : Except String String :=
  let w := pyUpper (pyStrip v)
  if caseTypeMatch w then Except.ok w else Except.error caseTypeErrMsg

/-- `CaseDetailsByNumber.validate_year` (src/main.py:41-46); `currentYear`
stands for `datetime.now().year` at call time. -/
def validate_year (v : Int) (currentYear : Nat) : Except String Int :=
  if v < 1950 ∨ (currentYear : Int) + 1 < v then
    Except.error ("Year should be between 1950 and " ++ toString ((currentYear : Int) + 1))
  else Except.ok v

/-- Two-character alternatives of CPython's `%d` pattern
`3[01]|[12]\d|0[1-9]|[1-9]`, in the regex's alternation order. -/
def matchTwoDay : List Char → Option (Nat × List Char)
  | c1 :: c2 :: rest =>
    if c1 = '3' ∧ (c2 = '0' ∨ c2 = '1') then some (30 + digitVal c2, rest)
    else if (c1 = '1' ∨ c1 = '2') ∧ 48 ≤ c2.toNat ∧ c2.toNat ≤ 57 then
      some (10 * digitVal c1 + digitVal c2, rest)
    else if c1 = '0' ∧ 49 ≤ c2.toNat ∧ c2.toNat ≤ 57 then some (digitVal c2, rest)
    else none
  | _ => none

/-- The single-character alternative `[1-9]` shared by `%d` and `%m`. -/
def matchOneDigit19 : List Char → Option (Nat × List Char)
  | c :: rest => if 49 ≤ c.toNat ∧ c.toNat ≤ 57 then some (digitVal c, rest) else none
  | [] => none

/-- CPython's `%d`: `3[01]|[12]\d|0[1-9]|[1-9]`. -/
def matchDay (cs : List Char) : Option (Nat × List Char) :=
  match matchTwoDay cs with
  | some r => some r
  | none => matchOneDigit19 cs

/-- Two-character alternatives of CPython's `%m` pattern `1[0-2]|0[1-9]|[1-9]`. -/
def matchTwoMonth : List Char → Option (Nat × List Char)
  | c1 :: c2 :: rest =>
    if c1 = '1' ∧ (c2 = '0' ∨ c2 = '1' ∨ c2 = '2') then some (10 + digitVal c2, rest)
    else if c1 = '0' ∧ 49 ≤ c2.toNat ∧ c2.toNat ≤ 57 then some (digitVal c2, rest)
    else none
  | _ => none

/-- CPython's `%m`: `1[0-2]|0[1-9]|[1-9]`. -/
def matchMonth (cs : List Char) : Option (Nat × List Char) :=
  match matchTwoMonth cs with
  | some r => some r
  | none => matchOneDigit19 cs

/-- CPython's `%Y`: exactly four digits. -/
def matchYear : List Char → Option (Nat × List Char)
  | a :: b :: c :: d :: rest =>
    if isPyDigit a ∧ isPyDigit b ∧ isPyDigit c ∧ isPyDigit d then
      some (1000 * digitVal a + 100 * digitVal b + 10 * digitVal c + digitVal d, rest)
    else none
  | _ => none

/-- Proleptic-Gregorian leap year, as used by Python's `datetime`. -/
def isLeapYear (y : Nat) : Bool := y % 4 == 0 && (y % 100 != 0 || y % 400 == 0)

/-- Length of a month in Python's `datetime` calendar. -/
def daysInMonth (y m : Nat) : Nat :=
  if m = 2 then (if isLeapYear y then 29 else 28)
  else if m = 4 ∨ m = 6 ∨ m = 9 ∨ m = 11 then 30
  else 31

/-- The literal `-` of the format string. -/
def expectDash : List Char → Option (List Char)
  | '-' :: rest => some rest
  | _ => none

/-- `datetime.strptime(v, "%d-%m-%Y")`, returning (day, month, year) on
success: regex match of day, `-`, month, `-`, four-digit year, nothing left
over, then the `datetime` constructor's validity checks. -/
def pyStrptimeDMY (s : String) : Option (Nat × Nat × Nat) :=
  (matchDay s.data).bind fun p =>
    (expectDash p.2).bind fun rest2 =>
      (matchMonth rest2).bind fun q =>
        (expectDash q.2).bind fun rest4 =>
          (matchYear rest4).bind fun r =>
            if r.2 = [] ∧ 1 ≤ r.1 ∧ p.1 ≤ daysInMonth r.1 q.1 then some (p.1, q.1, r.1)
            else none

def dateFmtErrMsg : String := "Date must be in DD-MM-YYYY format (e.g., 15-10-2025)"

/-- `CauseListRequest.validate_date` (src/main.py:54-61): succeed with the
input unchanged when `strptime` parses it, fail otherwise. -/
def validate_date (v : String) : Except String String :=
  match pyStrptimeDMY v with
  | some _ => Except.ok v
  | none => Except.error dateFmtErrMsg

/-- Boolean success test for `Except`. -/
def exOk {ε α : Type} : Except ε α → Bool
  | Except.ok _ => true
  | Except.error _ => false

structure CivilDate where
  year : Nat
  month : Nat
  day : Nat

/-- The wall clock passed explicitly to the handlers: a civil date plus the
seconds elapsed since midnight (microseconds elided). -/
structure Now where
  date : CivilDate
  sec : Nat

/-- Day number of a proleptic-Gregorian civil date (days since 0000-03-01,
the standard days-from-civil computation).  Only differences of day numbers
are ever used. -/
def rdNat (y m d : Nat) : Nat :=
  let yAdj := if m ≤ 2 then y - 1 else y
  let era := yAdj / 400
  let yoe := yAdj % 400
  let mp := (m + 9) % 12
  let doy := (153 * mp + 2) / 5 + d - 1
  let doe := yoe * 365 + yoe / 4 - yoe / 100 + doy
  era * 146097 + doe

def civilRd (c : CivilDate) : Nat := rdNat c.year c.month c.day

/-- `datetime.now() + timedelta(days=1)`, restricted to the date part. -/
def nextDay (c : CivilDate) : CivilDate :=
  if c.day < daysInMonth c.year c.month then CivilDate.mk c.year c.month (c.day + 1)
  else if c.month < 12 then CivilDate.mk c.year (c.month + 1) 1
  else CivilDate.mk (c.year + 1) 1 1

def pad2 (n : Nat) : String := if n < 10 then "0" ++ toString n else toString n

def pad4 (n : Nat) : String :=
  if n < 10 then "000" ++ toString n
  else if n < 100 then "00" ++ toString n
  else if n < 1000 then "0" ++ toString n
  else toString n

/-- `strftime("%d-%m-%Y")`. -/
def fmtDMY (c : CivilDate) : String := pad2 c.day ++ "-" ++ pad2 c.month ++ "-" ++ pad4 c.year

/-- JSON values, the bodies of every response of this API. -/
inductive Json where
  | str : String → Json
  | num : Int → Json
  | obj : List (String × Json) → Json
  | arr : List Json → Json

/-- Field lookup in a JSON object. -/
def jget : Json → String → Option Json
  | Json.obj fields, k => (fields.find? fun p => p.fst == k).map Prod.snd
  | _, _ => none

/-- Two-level field lookup. -/
def jget2 (j : Json) (k1 k2 : String) : Option Json := (jget j k1).bind fun x => jget x k2

structure HttpResponse where
  status : Nat
  body : Json

/-- FastAPI's rendering of a raised `HTTPException`. -/
def httpErrorBody (detail : String) : Json := Json.obj [("detail", Json.str detail)]

/-- FastAPI's default `RequestValidationError` response: HTTP 422 with a
`detail` list carrying the validator's message (the `loc`/`type` entries of
the real body are elided). -/
def resp422 (msg : String) : HttpResponse :=
  HttpResponse.mk 422 (Json.obj [("detail", Json.arr [Json.obj [("msg", Json.str msg)]])])

/-- Outcome of the outbound `httpx` POST to the eCourts portal. -/
inductive NetOutcome where
  | ok : Nat → NetOutcome
  | timeout : NetOutcome
  | failure : String → NetOutcome

/-- Python exceptions that a fetch function could let escape. -/
inductive PyExc where
  | httpExc : Nat → String → PyExc
  | valueError : String → PyExc
  | otherExc : String → PyExc

/-- The success payload built at src/main.py:82-93. -/
def cnrPayload (cnr : String) (now : Now) : Json :=
  Json.obj [
    ("cnr", Json.str cnr),
    ("status", Json.str "success"),
    ("message", Json.str "Case found"),
    ("case_details", Json.obj [
      ("cnr", Json.str cnr),
      ("listing_status", Json.str "Listed for tomorrow"),
      ("serial_number", Json.str "15"),
      ("court_name", Json.str "District and Session Judge, South-West DWK"),
      ("next_hearing", Json.str (fmtDMY (nextDay now.date))) ]) ]

/-- `fetch_case_by_cnr` (src/main.py:64-97).  The function always performs
the outbound POST; a non-200 portal status raises `HTTPException(500)` inside
the `try`, which the function's own generic `except Exception` clause catches
and re-raises with its text interpolated (`str(HTTPException)` is rendered as
`status: detail` by Starlette). -/
def fetch_case_by_cnr (cnr : String) (now : Now) (net : NetOutcome) : Except PyExc Json :=
  match net with
  | NetOutcome.ok code =>
    if code ≠ 200 then
      Except.error (PyExc.httpExc 500 "Error fetching case: 500: Failed to fetch case details")
    else Except.ok (cnrPayload cnr now)
  | NetOutcome.timeout =>
    Except.error (PyExc.httpExc 504 "Request timeout - eCourts server not responding")
  | NetOutcome.failure msg =>
    Except.error (PyExc.httpExc 500 ("Error fetching case: " ++ msg))

/-- The success payload built at src/main.py:120-133. -/
def detailsPayload (caseType : String) (caseNumber caseYear : Int) (district : String)
    (now : Now) : Json :=
  Json.obj [
    ("case_type", Json.str caseType),
    ("case_number", Json.num caseNumber),
    ("case_year", Json.num caseYear),
    ("status", Json.str "success"),
    ("message", Json.str "Case found"),
    ("case_details", Json.obj [
      ("case_reference",
        Json.str (caseType ++ "/" ++ toString caseNumber ++ "/" ++ toString caseYear)),
      ("listing_status", Json.str "Listed today"),
      ("serial_number", Json.str "8"),
      ("court_name", Json.str ("District and Session Judge, " ++ district)),
      ("next_hearing", Json.str (fmtDMY now.date)) ]) ]

/-- `fetch_case_by_details` (src/main.py:100-137), with the same exception
structure as `fetch_case_by_cnr`. -/
def fetch_case_by_details (caseType : String) (caseNumber caseYear : Int)
    (state district courtComplex : String) (now : Now) (net : NetOutcome) :
    Except PyExc Json :=
  match net with
  | NetOutcome.ok code =>
    if code ≠ 200 then
      Except.error (PyExc.httpExc 500 "Error fetching case: 500: Failed to fetch case details")
    else Except.ok (detailsPayload caseType caseNumber caseYear district now)
  | NetOutcome.timeout =>
    Except.error (PyExc.httpExc 504 "Request timeout - eCourts server not responding")
  | NetOutcome.failure msg =>
    Except.error (PyExc.httpExc 500 ("Error fetching case: " ++ msg))

/-- The identical `try`/`except` ladders of `check_case_by_cnr`
(src/main.py:175-183) and `check_case_by_details` (src/main.py:200-211),
composed with FastAPI's rendering: a returned dict becomes a 200 response, a
raised `HTTPException` is re-raised and rendered as its status code with a
`detail` body, a `ValueError` would become `HTTPException(400)`, and any
other exception `HTTPException(500)`. -/
def runHandler (r : Except PyExc Json) : HttpResponse :=
  match r with
  | Except.ok payload => HttpResponse.mk 200 payload
  | Except.error (PyExc.httpExc st d) => HttpResponse.mk st (httpErrorBody d)
  | Except.error (PyExc.valueError m) => HttpResponse.mk 400 (httpErrorBody m)
  | Except.error (PyExc.otherExc m) =>
    HttpResponse.mk 500 (httpErrorBody ("Unexpected error: " ++ m))

/-- Route handler `check_case_by_cnr` (src/main.py:166-183), after request
parsing has succeeded. -/
def check_case_by_cnr (cnr : String) (now : Now) (net : NetOutcome) : HttpResponse :=
  runHandler (fetch_case_by_cnr cnr now net)

/-- POST /case/cnr end to end: pydantic runs `validate_cnr` while parsing the
body; a validator failure is rendered by FastAPI as 422 before the handler
body runs. -/
def postCaseCnr (cnr : String) (now : Now) (net : NetOutcome) : HttpResponse :=
  match validate_cnr cnr with
  | Except.error m => resp422 m
  | Except.ok v => check_case_by_cnr v now net

/-- Route handler `check_case_by_details` (src/main.py:186-211), after
request parsing has succeeded. -/
def check_case_by_details (caseType : String) (caseNumber caseYear : Int)
    (state district courtComplex : String) (now : Now) (net : NetOutcome) : HttpResponse :=
  runHandler (fetch_case_by_details caseType caseNumber caseYear state district courtComplex
    now net)

/-- POST /case/details end to end: pydantic runs `validate_case_type` and
`validate_year` (fields in declaration order) while parsing the body. -/
def postCaseDetails (caseType : String) (caseNumber caseYear : Int)
    (state district courtComplex : String) (now : Now) (net : NetOutcome) : HttpResponse :=
  match validate_case_type caseType with
  | Except.error m => resp422 m
  | Except.ok t =>
    match validate_year caseYear now.date.year with
    | Except.error m => resp422 m
    | Except.ok y => check_case_by_details t caseNumber y state district courtComplex now net

def pdfCnrErrMsg : String :=
  "Invalid CNR format. Expected: 4 letters + 12 digits (e.g., DLSW010093242025)"

/-- The fixed success payload of POST /case/download-pdf (src/main.py:233-238). -/
def pdfBody (cnr : String) : Json :=
  Json.obj [
    ("message", Json.str "PDF download feature"),
    ("cnr", Json.str cnr),
    ("status", Json.str "PDF not available for this case"),
    ("note", Json.str "PDF availability depends on court digitization status") ]

/-- POST /case/download-pdf (src/main.py:214-242): the CNR arrives as a plain
string query parameter, so the handler itself strips, uppercases and checks
the same pattern, raising `HTTPException(400)` on failure (re-raised by its
`except HTTPException` clause). -/
def download_case_pdf (cnr : String) : HttpResponse :=
  let c := pyUpper (pyStrip cnr)
  if cnrMatch c then HttpResponse.mk 200 (pdfBody c)
  else HttpResponse.mk 400 (httpErrorBody pdfCnrErrMsg)

/-- Python `date.replace("-", "")`. -/
def removeDashes (s : String) : String := String.mk (s.data.filter fun c => c != '-')

/-- The fixed three-entry sample list at src/main.py:278-297. -/
def causeListEntries : Json :=
  Json.arr [
    Json.obj [
      ("serial_no", Json.num 1),
      ("case_no", Json.str "Bail Matters/1702/2025"),
      ("parties", Json.str "STATE Vs S.K. DUBEY"),
      ("court", Json.str "District and Session Judge, South-West DWK") ],
    Json.obj [
      ("serial_no", Json.num 8),
      ("case_no", Json.str "ARBTN/4/2025"),
      ("parties", Json.str "MITU SATAPATHY Vs DJA COOPERATIVE GROUP HOUSING SOCIETY LTD"),
      ("court", Json.str "District and Session Judge, South-West DWK") ],
    Json.obj [
      ("serial_no", Json.num 15),
      ("case_no", Json.str "ARBTN/5/2025"),
      ("parties", Json.str "Petitioner Vs Respondent"),
      ("court", Json.str "District and Session Judge, South-West DWK") ] ]

/-- The success body of POST /causelist/download (src/main.py:272-300). -/
def causeListBody (date state district courtComplex : String) : Json :=
  Json.obj [
    ("date", Json.str date),
    ("state", Json.str state),
    ("district", Json.str district),
    ("court_complex", Json.str courtComplex),
    ("total_cases", Json.num 116),
    ("cause_list", causeListEntries),
    ("download_url",
      Json.str ("https://services.ecourts.gov.in/causelist/" ++ removeDashes date ++ ".pdf")),
    ("message", Json.str "Cause list fetched successfully") ]

/-- Stand-in for the text of the `ValueError` that `strptime` raises on a
malformed date (the handler forwards `str(e)`; the exact text comes from
CPython and is abbreviated here).  This branch is unreachable through the
route, which validates the date during request parsing. -/
def strptimeParseErrMsg : String := "time data does not match format"

/-- Route handler `download_cause_list` (src/main.py:245-306): re-parse the
date, compare `abs((request_date - today).days)` against 90
(`timedelta.days` floors the second difference over 86400), then either the
fixed payload or `HTTPException(400)`. -/
def download_cause_list (date state district courtComplex : String) (now : Now) :
    HttpResponse :=
  match pyStrptimeDMY date with
  | none => HttpResponse.mk 400 (httpErrorBody strptimeParseErrMsg)
  | some (d, m, y) =>
    if (Int.fdiv ((rdNat y m d : Int) * 86400 - ((civilRd now.date : Int) * 86400 + now.sec))
        86400).natAbs > 90 then
      HttpResponse.mk 400 (httpErrorBody "Date should be within 90 days from today")
    else HttpResponse.mk 200 (causeListBody date state district courtComplex)

/-- POST /causelist/download end to end: pydantic runs `validate_date` while
parsing the body, then the handler runs. -/
def postCauselistDownload (date state district courtComplex : String) (now : Now) :
    HttpResponse :=
  match validate_date date with
  | Except.error m => resp422 m
  | Except.ok v => download_cause_list v state district courtComplex now

/-- A concrete clock: midnight, 2025-01-01. -/
def now20250101 : Now := Now.mk (CivilDate.mk 2025 1 1) 0

theorem digitVal_le9 {c : Char} (hlo : 48 ≤ c.toNat) (hhi : c.toNat ≤ 57) :
    digitVal c ≤ 9 := by
  unfold digitVal; omega

theorem digitVal_ge1 {c : Char} (hlo : 49 ≤ c.toNat) (hhi : c.toNat ≤ 57) :
    1 ≤ digitVal c ∧ digitVal c ≤ 9 := by
  unfold digitVal; omega

theorem matchTwoDay_bounds {cs rest : List Char} {d : Nat}
    (h : matchTwoDay cs = some (d, rest)) : 1 ≤ d ∧ d ≤ 31 := by
  rcases cs with _ | ⟨c1, _ | ⟨c2, tl⟩⟩ <;> simp only [matchTwoDay] at h
  · exact absurd h (by simp)
  · exact absurd h (by simp)
  · split_ifs at h with h1 h2 h3
    · obtain ⟨hd, -⟩ : 30 + digitVal c2 = d ∧ tl = rest := by simpa using h
      rcases h1.2 with hc | hc <;> subst hc <;>
        simp only [show digitVal '0' = 0 from rfl, show digitVal '1' = 1 from rfl] at hd <;>
        omega
    · obtain ⟨hd, -⟩ : 10 * digitVal c1 + digitVal c2 = d ∧ tl = rest := by simpa using h
      obtain ⟨hc1, hlo, hhi⟩ := h2
      have hd2 := digitVal_le9 hlo hhi
      rcases hc1 with hc | hc <;> subst hc <;>
        simp only [show digitVal '1' = 1 from rfl, show digitVal '2' = 2 from rfl] at hd <;>
        omega
    · obtain ⟨hd, -⟩ : digitVal c2 = d ∧ tl = rest := by simpa using h
      have := digitVal_ge1 h3.2.1 h3.2.2
      omega

theorem matchOneDigit19_bounds {cs rest : List Char} {d : Nat}
    (h : matchOneDigit19 cs = some (d, rest)) : 1 ≤ d ∧ d ≤ 9 := by
  rcases cs with _ | ⟨c, tl⟩ <;> simp only [matchOneDigit19] at h
  · exact absurd h (by simp)
  · split_ifs at h with h1
    · obtain ⟨hd, -⟩ : digitVal c = d ∧ tl = rest := by simpa using h
      have := digitVal_ge1 h1.1 h1.2
      omega

theorem matchDay_bounds {cs rest : List Char} {d : Nat}
    (h : matchDay cs = some (d, rest)) : 1 ≤ d ∧ d ≤ 31 := by
  unfold matchDay at h
  cases h2 : matchTwoDay cs with
  | some r =>
    rw [h2] at h
    simp only [Option.some.injEq] at h
    subst h
    exact matchTwoDay_bounds h2
  | none =>
    rw [h2] at h
    simp only at h
    have := matchOneDigit19_bounds h
    omega

theorem matchTwoMonth_bounds {cs rest : List Char} {m : Nat}
    (h : matchTwoMonth cs = some (m, rest)) : 1 ≤ m ∧ m ≤ 12 := by
  rcases cs with _ | ⟨c1, _ | ⟨c2, tl⟩⟩ <;> simp only [matchTwoMonth] at h
  · exact absurd h (by simp)
  · exact absurd h (by simp)
  · split_ifs at h with h1 h2
    · obtain ⟨hm, -⟩ : 10 + digitVal c2 = m ∧ tl = rest := by simpa using h
      rcases h1.2 with hc | hc | hc <;> subst hc <;>
        simp only [show digitVal '0' = 0 from rfl, show digitVal '1' = 1 from rfl,
          show digitVal '2' = 2 from rfl] at hm <;> omega
    · obtain ⟨hm, -⟩ : digitVal c2 = m ∧ tl = rest := by simpa using h
      have := digitVal_ge1 h2.2.1 h2.2.2
      omega

theorem matchMonth_bounds {cs rest : List Char} {m : Nat}
    (h : matchMonth cs = some (m, rest)) : 1 ≤ m ∧ m ≤ 12 := by
  unfold matchMonth at h
  cases h2 : matchTwoMonth cs with
  | some r =>
    rw [h2] at h
    simp only [Option.some.injEq] at h
    subst h
    exact matchTwoMonth_bounds h2
  | none =>
    rw [h2] at h
    simp only at h
    have := matchOneDigit19_bounds h
    omega

theorem matchYear_bounds {cs rest : List Char} {y : Nat}
    (h : matchYear cs = some (y, rest)) : y ≤ 9999 := by
  rcases cs with _ | ⟨a, _ | ⟨b, _ | ⟨c, _ | ⟨d, tl⟩⟩⟩⟩ <;> simp only [matchYear] at h
  · exact absurd h (by simp)
  · exact absurd h (by simp)
  · exact absurd h (by simp)
  · exact absurd h (by simp)
  · split_ifs at h with h1
    · obtain ⟨hy, -⟩ :
          1000 * digitVal a + 100 * digitVal b + 10 * digitVal c + digitVal d = y ∧
            tl = rest := by simpa using h
      obtain ⟨ha, hb, hc, hd⟩ := h1
      simp only [isPyDigit, Bool.and_eq_true, decide_eq_true_eq] at ha hb hc hd
      have h1 := digitVal_le9 ha.1 ha.2
      have h2 := digitVal_le9 hb.1 hb.2
      have h3 := digitVal_le9 hc.1 hc.2
      have h4 := digitVal_le9 hd.1 hd.2
      omega

theorem pyStrptimeDMY_sound {s : String} {d m y : Nat}
    (h : pyStrptimeDMY s = some (d, m, y)) :
    1 ≤ d ∧ d ≤ 31 ∧ 1 ≤ m ∧ m ≤ 12 ∧ 1 ≤ y ∧ y ≤ 9999 ∧ d ≤ daysInMonth y m := by
  unfold pyStrptimeDMY at h
  simp only [Option.bind_eq_some] at h
  obtain ⟨⟨d0, rest1⟩, hday, rest2, -, ⟨m0, rest3⟩, hmon, rest4, -, ⟨y0, rest5⟩, hyear,
    hfin⟩ := h
  dsimp only at hfin
  split_ifs at hfin with hc
  · simp only [Option.some.injEq, Prod.mk.injEq] at hfin
    obtain ⟨hd, hm, hy⟩ := hfin
    subst hd; subst hm; subst hy
    have hdb := matchDay_bounds hday
    have hmb := matchMonth_bounds hmon
    have hyb := matchYear_bounds hyear
    exact ⟨hdb.1, hdb.2, hmb.1, hmb.2, hc.2.1, hyb, hc.2.2⟩

/-- C1: for every input string whose trimmed, uppercased form matches the
16-character pattern (4 uppercase letters then 12 digits), `validate_cnr`
succeeds and returns that normalized string; for every input whose
normalized form does not match, it fails with the validation error. -/
theorem c1_record_number_validator (s : String) :
    (cnrMatch (pyUpper (pyStrip s)) = true →
      validate_cnr s = Except.ok (pyUpper (pyStrip s))) ∧
    (cnrMatch (pyUpper (pyStrip s)) = false →
      validate_cnr s = Except.error cnrErrMsg) := by
  unfold validate_cnr
  constructor <;> intro h <;> simp [h]

theorem c1_record_number_validator_witness :
    validate_cnr " dlsw010093242025 " = Except.ok "DLSW010093242025" ∧
    validate_cnr "DLSW-010093242025" = Except.error cnrErrMsg := by
  constructor
  · have h := (c1_record_number_validator " dlsw010093242025 ").1 (by decide)
    have e : pyUpper (pyStrip " dlsw010093242025 ") = "DLSW010093242025" := by decide
    rw [e] at h
    exact h
  · exact (c1_record_number_validator "DLSW-010093242025").2 (by decide)

/-- Modelled from the claim's words, for comparison with the code: the strict
shape with exactly two day digits, two month digits and four year digits. -/
def specStrictDMY (s : String) : Bool :=
  match s.data with
  | [d1, d2, '-', m1, m2, '-', y1, y2, y3, y4] =>
    isPyDigit d1 && isPyDigit d2 && isPyDigit m1 && isPyDigit m2 &&
      isPyDigit y1 && isPyDigit y2 && isPyDigit y3 && isPyDigit y4
  | _ => false

/-- C2 counterexample: the claim says the date validator succeeds only on
parses with a two-digit day and a two-digit month, but Python's `strptime`
day and month patterns also accept a single digit, so `validate_date`
accepts "5-1-2025", which does not have the strict two-two-four shape. -/
theorem c2_date_validator_counterexample :
    validate_date "5-1-2025" = Except.ok "5-1-2025" ∧
    specStrictDMY "5-1-2025" = false :=
  ⟨by rfl, by decide⟩

/-- C2 (amended): the date validator succeeds only on strict day-month-year
parses in which the day is one or two digits denoting 1-31, the month one or
two digits denoting 1-12, and the year exactly four digits, with the
calendar date valid; both the zero-padded "15-10-2025" and the unpadded
"5-1-2025" succeed, while other orderings ("2025-10-15") and invalid
calendar dates ("32-13-2025", "31-02-2025", "abc") fail. -/
theorem c2_date_validator_amended :
    (∀ s r, validate_date s = Except.ok r →
      r = s ∧ ∃ d m y, pyStrptimeDMY s = some (d, m, y) ∧ 1 ≤ d ∧ d ≤ 31 ∧ 1 ≤ m ∧
        m ≤ 12 ∧ 1 ≤ y ∧ y ≤ 9999 ∧ d ≤ daysInMonth y m) ∧
    validate_date "15-10-2025" = Except.ok "15-10-2025" ∧
    validate_date "5-1-2025" = Except.ok "5-1-2025" ∧
    exOk (validate_date "2025-10-15") = false ∧
    exOk (validate_date "32-13-2025") = false ∧
    exOk (validate_date "31-02-2025") = false ∧
    exOk (validate_date "abc") = false := by
  refine ⟨?_, by rfl, by rfl, by rfl, by rfl, by rfl, by rfl⟩
  intro s r h
  unfold validate_date at h
  cases hp : pyStrptimeDMY s with
  | none => rw [hp] at h; exact absurd h (by simp)
  | some t =>
    obtain ⟨d, m, y⟩ := t
    rw [hp] at h
    simp only [Except.ok.injEq] at h
    subst h
    obtain ⟨h1, h2, h3, h4, h5, h6, h7⟩ := pyStrptimeDMY_sound hp
    exact ⟨rfl, d, m, y, rfl, h1, h2, h3, h4, h5, h6, h7⟩

theorem c2_date_validator_amended_witness :
    "15-10-2025" = "15-10-2025" ∧ ∃ d m y, pyStrptimeDMY "15-10-2025" = some (d, m, y) ∧
      1 ≤ d ∧ d ≤ 31 ∧ 1 ≤ m ∧ m ≤ 12 ∧ 1 ≤ y ∧ y ≤ 9999 ∧ d ≤ daysInMonth y m :=
  c2_date_validator_amended.1 "15-10-2025" "15-10-2025" (by rfl)

/-- C7: for every integer y with 1950 ≤ y ≤ currentYear + 1 the case-year
validator succeeds and returns y; for y outside that range it fails with a
validation error. -/
theorem c7_case_year_validator (v : Int) (currentYear : Nat) :
    (1950 ≤ v → v ≤ (currentYear : Int) + 1 →
      validate_year v currentYear = Except.ok v) ∧
    ((v < 1950 ∨ (currentYear : Int) + 1 < v) →
      exOk (validate_year v currentYear) = false) := by
  unfold validate_year
  constructor
  · intro h1 h2
    rw [if_neg (by omega)]
  · intro h
    rw [if_pos (by omega)]
    rfl

theorem c7_case_year_validator_witness :
    validate_year 2025 2025 = Except.ok 2025 ∧
    exOk (validate_year 1949 2025) = false ∧
    exOk (validate_year 2027 2025) = false :=
  ⟨(c7_case_year_validator 2025 2025).1 (by decide) (by decide),
    (c7_case_year_validator 1949 2025).2 (by decide),
    (c7_case_year_validator 2027 2025).2 (by decide)⟩

theorem httpResponse_400_ne_200 {b1 b2 : Json} :
    HttpResponse.mk 400 b1 ≠ HttpResponse.mk 200 b2 := by
  intro h
  have := congrArg HttpResponse.status h
  simp at this

/-- C3: for every cause-list request whose date passes format validation
(here: strptime yields day d, month m, year y), the handler fails with the
400 "within 90 days" client error exactly when the absolute difference in
days between the requested date and the moment of the call exceeds 90, and
succeeds exactly when that difference is at most 90.  The difference in days
is the day count of the Python timedelta `request_date - today`, i.e. the
floor of the second difference over 86400, which is what the code computes. -/
theorem c3_cause_list_window (date state district courtComplex : String) (now : Now)
    (d m y : Nat) (hfmt : pyStrptimeDMY date = some (d, m, y)) :
    (download_cause_list date state district courtComplex now =
        HttpResponse.mk 400 (httpErrorBody "Date should be within 90 days from today") ↔
      90 < (Int.fdiv ((rdNat y m d : Int) * 86400 -
        ((civilRd now.date : Int) * 86400 + now.sec)) 86400).natAbs) ∧
    (download_cause_list date state district courtComplex now =
        HttpResponse.mk 200 (causeListBody date state district courtComplex) ↔
      (Int.fdiv ((rdNat y m d : Int) * 86400 -
        ((civilRd now.date : Int) * 86400 + now.sec)) 86400).natAbs ≤ 90) := by
  unfold download_cause_list
  rw [hfmt]
  dsimp only
  split_ifs with hgt
  · exact ⟨⟨fun _ => hgt, fun _ => rfl⟩,
      ⟨fun hEq => absurd hEq httpResponse_400_ne_200, fun hle => absurd hgt (by omega)⟩⟩
  · exact ⟨⟨fun hEq => absurd hEq (Ne.symm httpResponse_400_ne_200),
        fun h90 => absurd h90 hgt⟩,
      ⟨fun _ => by omega, fun _ => rfl⟩⟩

theorem c3_cause_list_window_witness :
    download_cause_list "15-04-2025" "Delhi" "South West" "Dwarka Court Complex"
        now20250101 =
      HttpResponse.mk 400 (httpErrorBody "Date should be within 90 days from today") ∧
    download_cause_list "01-03-2025" "Delhi" "South West" "Dwarka Court Complex"
        now20250101 =
      HttpResponse.mk 200
        (causeListBody "01-03-2025" "Delhi" "South West" "Dwarka Court Complex") := by
  constructor
  · exact (c3_cause_list_window "15-04-2025" "Delhi" "South West" "Dwarka Court Complex"
      now20250101 15 4 2025 (by decide)).1.mpr (by decide)
  · exact (c3_cause_list_window "01-03-2025" "Delhi" "South West" "Dwarka Court Complex"
      now20250101 1 3 2025 (by decide)).2.mpr (by decide)

/-- C8: every cause-list request that passes the format check and the 90-day
window check gets a 200 response that echoes the requested date and the
jurisdiction fields, carries the fixed total of 116 cases and the fixed
three-entry sample list (a constant, independent of the request), and a
download URL obtained by deleting the "-" characters from the requested
date. -/
theorem c8_cause_list_success (date state district courtComplex : String) (now : Now)
    (d m y : Nat) (hfmt : pyStrptimeDMY date = some (d, m, y))
    (hwin : (Int.fdiv ((rdNat y m d : Int) * 86400 -
      ((civilRd now.date : Int) * 86400 + now.sec)) 86400).natAbs ≤ 90) :
    download_cause_list date state district courtComplex now =
      HttpResponse.mk 200 (causeListBody date state district courtComplex) ∧
    jget (causeListBody date state district courtComplex) "date" =
      some (Json.str date) ∧
    jget (causeListBody date state district courtComplex) "state" =
      some (Json.str state) ∧
    jget (causeListBody date state district courtComplex) "district" =
      some (Json.str district) ∧
    jget (causeListBody date state district courtComplex) "court_complex" =
      some (Json.str courtComplex) ∧
    jget (causeListBody date state district courtComplex) "total_cases" =
      some (Json.num 116) ∧
    jget (causeListBody date state district courtComplex) "cause_list" =
      some causeListEntries ∧
    jget (causeListBody date state district courtComplex) "download_url" =
      some (Json.str
        ("https://services.ecourts.gov.in/causelist/" ++ removeDashes date ++ ".pdf")) := by
  refine ⟨?_, rfl, rfl, rfl, rfl, rfl, rfl, rfl⟩
  unfold download_cause_list
  rw [hfmt]
  dsimp only
  rw [if_neg (by omega)]

theorem c8_cause_list_success_witness :
    download_cause_list "15-10-2025" "Delhi" "South West" "Dwarka Court Complex"
        (Now.mk (CivilDate.mk 2025 10 1) 0) =
      HttpResponse.mk 200
        (causeListBody "15-10-2025" "Delhi" "South West" "Dwarka Court Complex") :=
  (c8_cause_list_success "15-10-2025" "Delhi" "South West" "Dwarka Court Complex"
    (Now.mk (CivilDate.mk 2025 10 1) 0) 15 10 2025 (by decide) (by decide)).1

/-- C4 counterexample: the claim says every validation failure is answered
with HTTP 400 and an error/message/help body, but a malformed record number
in the request body is rejected while FastAPI parses the request model and
is rendered by the RequestValidationError default handler: the status is
422, not 400. -/
theorem c4_error_responses_counterexample :
    (postCaseCnr "123456" now20250101 NetOutcome.timeout).status = 422 ∧
    (postCaseCnr "123456" now20250101 NetOutcome.timeout).status ≠ 400 := by
  constructor
  · rfl
  · decide

/-- C4 (amended): requests failing request-model validation (record number,
case type, year, date format) are answered 422 with FastAPI's detail-list
validation body; the query-parameter record-number check and the 90-day
window check are answered 400 with a detail body; unclassified handler
failures are answered 500 with a detail body.  The registered ValueError
handler (400 with error/message/help) is not reached on these paths. -/
theorem c4_error_responses_amended :
    (∀ s now net, cnrMatch (pyUpper (pyStrip s)) = false →
      postCaseCnr s now net = resp422 cnrErrMsg) ∧
    (∀ t n y st dt cc now net, caseTypeMatch (pyUpper (pyStrip t)) = false →
      postCaseDetails t n y st dt cc now net = resp422 caseTypeErrMsg) ∧
    (∀ t n y st dt cc now net, caseTypeMatch (pyUpper (pyStrip t)) = true →
      (y < 1950 ∨ (now.date.year : Int) + 1 < y) →
      postCaseDetails t n y st dt cc now net =
        resp422 ("Year should be between 1950 and " ++
          toString ((now.date.year : Int) + 1))) ∧
    (∀ date st dt cc now, pyStrptimeDMY date = none →
      postCauselistDownload date st dt cc now = resp422 dateFmtErrMsg) ∧
    (∀ s, cnrMatch (pyUpper (pyStrip s)) = false →
      download_case_pdf s = HttpResponse.mk 400 (httpErrorBody pdfCnrErrMsg)) ∧
    (∀ date st dt cc now d m y, pyStrptimeDMY date = some (d, m, y) →
      90 < (Int.fdiv ((rdNat y m d : Int) * 86400 -
        ((civilRd now.date : Int) * 86400 + now.sec)) 86400).natAbs →
      postCauselistDownload date st dt cc now =
        HttpResponse.mk 400 (httpErrorBody "Date should be within 90 days from today")) ∧
    (∀ s now msg, cnrMatch (pyUpper (pyStrip s)) = true →
      postCaseCnr s now (NetOutcome.failure msg) =
        HttpResponse.mk 500 (httpErrorBody ("Error fetching case: " ++ msg))) := by
  refine ⟨?_, ?_, ?_, ?_, ?_, ?_, ?_⟩
  · intro s now net h
    have hv : validate_cnr s = Except.error cnrErrMsg := by
      unfold validate_cnr
      simp [h]
    unfold postCaseCnr
    rw [hv]
  · intro t n y st dt cc now net h
    have hv : validate_case_type t = Except.error caseTypeErrMsg := by
      unfold validate_case_type
      simp [h]
    unfold postCaseDetails
    rw [hv]
  · intro t n y st dt cc now net ht hy
    have hv1 : validate_case_type t = Except.ok (pyUpper (pyStrip t)) := by
      unfold validate_case_type
      simp [ht]
    have hv2 : validate_year y now.date.year =
        Except.error ("Year should be between 1950 and " ++
          toString ((now.date.year : Int) + 1)) := by
      unfold validate_year
      rw [if_pos hy]
    unfold postCaseDetails
    rw [hv1]
    dsimp only
    rw [hv2]
  · intro date st dt cc now hfmt
    have hv : validate_date date = Except.error dateFmtErrMsg := by
      unfold validate_date
      rw [hfmt]
    unfold postCauselistDownload
    rw [hv]
  · intro s h
    unfold download_case_pdf
    simp [h]
  · intro date st dt cc now d m y hfmt hgt
    have hv : validate_date date = Except.ok date := by
      unfold validate_date
      rw [hfmt]
    unfold postCauselistDownload
    rw [hv]
    dsimp only
    unfold download_cause_list
    rw [hfmt]
    dsimp only
    rw [if_pos hgt]
  · intro s now msg h
    have hv : validate_cnr s = Except.ok (pyUpper (pyStrip s)) := by
      unfold validate_cnr
      simp [h]
    unfold postCaseCnr
    rw [hv]
    dsimp only
    rfl

theorem c4_error_responses_amended_witness :
    postCaseCnr "123456" now20250101 NetOutcome.timeout = resp422 cnrErrMsg ∧
    postCaseDetails "123" 4 2025 "Delhi" "South West" "Dwarka Court Complex" now20250101
        NetOutcome.timeout = resp422 caseTypeErrMsg ∧
    postCaseDetails "ARBTN" 4 1900 "Delhi" "South West" "Dwarka Court Complex" now20250101
        NetOutcome.timeout =
      resp422 ("Year should be between 1950 and " ++
        toString ((now20250101.date.year : Int) + 1)) ∧
    postCauselistDownload "abc" "Delhi" "South West" "Dwarka Court Complex" now20250101 =
      resp422 dateFmtErrMsg ∧
    download_case_pdf "INVALID123" = HttpResponse.mk 400 (httpErrorBody pdfCnrErrMsg) ∧
    postCauselistDownload "15-10-2023" "Delhi" "South West" "Dwarka Court Complex"
        now20250101 =
      HttpResponse.mk 400 (httpErrorBody "Date should be within 90 days from today") ∧
    postCaseCnr "DLSW010093242025" now20250101 (NetOutcome.failure "boom") =
      HttpResponse.mk 500 (httpErrorBody ("Error fetching case: " ++ "boom")) :=
  ⟨c4_error_responses_amended.1 "123456" now20250101 NetOutcome.timeout (by decide),
   c4_error_responses_amended.2.1 "123" 4 2025 "Delhi" "South West" "Dwarka Court Complex"
     now20250101 NetOutcome.timeout (by decide),
   c4_error_responses_amended.2.2.1 "ARBTN" 4 1900 "Delhi" "South West"
     "Dwarka Court Complex" now20250101 NetOutcome.timeout (by decide) (by decide),
   c4_error_responses_amended.2.2.2.1 "abc" "Delhi" "South West" "Dwarka Court Complex"
     now20250101 (by decide),
   c4_error_responses_amended.2.2.2.2.1 "INVALID123" (by decide),
   c4_error_responses_amended.2.2.2.2.2.1 "15-10-2023" "Delhi" "South West"
     "Dwarka Court Complex" now20250101 15 10 2023 (by decide) (by decide),
   c4_error_responses_amended.2.2.2.2.2.2 "DLSW010093242025" now20250101 "boom"
     (by decide)⟩

/-- C5 counterexample: the claim says producing the CNR result requires no
network call in the current behavior, but the handler performs the outbound
POST and the response depends on its outcome: with the network timing out,
the same valid request is answered 504, not the claimed 200. -/
theorem c5_cnr_lookup_counterexample :
    (postCaseCnr "DLSW010093242025" now20250101 NetOutcome.timeout).status = 504 ∧
    (postCaseCnr "DLSW010093242025" now20250101 NetOutcome.timeout).status ≠ 200 := by
  constructor
  · rfl
  · decide

/-- C5 (amended): provided the outbound portal POST returns HTTP 200, a POST
to /case/cnr carrying record number "DLSW010093242025" is answered 200 with
case_details.serial_number "15" and case_details.next_hearing equal to the
current date plus one day in day-month-year format; the handler does perform
a network call: the same request observes 504 when that call times out and
500 when it fails otherwise. -/
theorem c5_cnr_lookup_amended (now : Now) (msg : String) :
    postCaseCnr "DLSW010093242025" now (NetOutcome.ok 200) =
      HttpResponse.mk 200 (cnrPayload "DLSW010093242025" now) ∧
    jget2 (cnrPayload "DLSW010093242025" now) "case_details" "serial_number" =
      some (Json.str "15") ∧
    jget2 (cnrPayload "DLSW010093242025" now) "case_details" "next_hearing" =
      some (Json.str (fmtDMY (nextDay now.date))) ∧
    (postCaseCnr "DLSW010093242025" now NetOutcome.timeout).status = 504 ∧
    (postCaseCnr "DLSW010093242025" now (NetOutcome.failure msg)).status = 500 := by
  exact ⟨rfl, rfl, rfl, rfl, rfl⟩

/-- C6 counterexample: the claim promises a 200 response for every valid
details request, but the handler performs the outbound POST: with the
network timing out, the valid request is answered 504, not 200. -/
theorem c6_details_lookup_counterexample :
    (postCaseDetails "arbtn" 4 2025 "Delhi" "South West" "Dwarka Court Complex"
      now20250101 NetOutcome.timeout).status = 504 ∧
    (postCaseDetails "arbtn" 4 2025 "Delhi" "South West" "Dwarka Court Complex"
      now20250101 NetOutcome.timeout).status ≠ 200 := by
  constructor
  · rfl
  · decide

/-- C6 (amended): provided the outbound portal POST returns HTTP 200, a POST
to /case/details with a case_type that is letters after trimming and
uppercasing, any integer case_number and a case_year in range is answered
200 with case_details.case_reference the uppercased type, number and year
joined by slashes, a court_name interpolating the supplied district, and
next_hearing equal to the current date; a timeout on the outbound call is
answered 504 instead. -/
theorem c6_details_lookup_amended (caseType : String) (caseNumber caseYear : Int)
    (state district courtComplex : String) (now : Now)
    (ht : caseTypeMatch (pyUpper (pyStrip caseType)) = true)
    (h1 : 1950 ≤ caseYear) (h2 : caseYear ≤ (now.date.year : Int) + 1) :
    postCaseDetails caseType caseNumber caseYear state district courtComplex now
        (NetOutcome.ok 200) =
      HttpResponse.mk 200
        (detailsPayload (pyUpper (pyStrip caseType)) caseNumber caseYear district now) ∧
    jget2 (detailsPayload (pyUpper (pyStrip caseType)) caseNumber caseYear district now)
        "case_details" "case_reference" =
      some (Json.str (pyUpper (pyStrip caseType) ++ "/" ++ toString caseNumber ++ "/" ++
        toString caseYear)) ∧
    jget2 (detailsPayload (pyUpper (pyStrip caseType)) caseNumber caseYear district now)
        "case_details" "court_name" =
      some (Json.str ("District and Session Judge, " ++ district)) ∧
    jget2 (detailsPayload (pyUpper (pyStrip caseType)) caseNumber caseYear district now)
        "case_details" "next_hearing" =
      some (Json.str (fmtDMY now.date)) ∧
    (postCaseDetails caseType caseNumber caseYear state district courtComplex now
      NetOutcome.timeout).status = 504 := by
  have hv1 : validate_case_type caseType = Except.ok (pyUpper (pyStrip caseType)) := by
    unfold validate_case_type
    simp [ht]
  have hv2 : validate_year caseYear now.date.year = Except.ok caseYear := by
    unfold validate_year
    rw [if_neg (by omega)]
  refine ⟨?_, rfl, rfl, rfl, ?_⟩
  · unfold postCaseDetails
    rw [hv1]
    dsimp only
    rw [hv2]
    dsimp only
    rfl
  · unfold postCaseDetails
    rw [hv1]
    dsimp only
    rw [hv2]
    dsimp only
    rfl

theorem c6_details_lookup_amended_witness :
    postCaseDetails "arbtn" 4 2025 "Delhi" "South West" "Dwarka Court Complex"
        now20250101 (NetOutcome.ok 200) =
      HttpResponse.mk 200 (detailsPayload "ARBTN" 4 2025 "South West" now20250101) := by
  have h := (c6_details_lookup_amended "arbtn" 4 2025 "Delhi" "South West"
    "Dwarka Court Complex" now20250101 (by decide) (by decide) (by decide)).1
  have e : pyUpper (pyStrip "arbtn") = "ARBTN" := by decide
  rw [e] at h
  exact h

/-- C9: a query-parameter record number that, trimmed and uppercased,
matches the shared 4-letter/12-digit pattern is answered 200 with the fixed
"not available" status payload (the success body is this constant JSON
object, never document bytes); every non-matching value is answered with the
400 client error.  The acceptance condition coincides with the body-based
validator's. -/
theorem c9_pdf_download (cnr : String) :
    (cnrMatch (pyUpper (pyStrip cnr)) = true →
      download_case_pdf cnr = HttpResponse.mk 200 (pdfBody (pyUpper (pyStrip cnr)))) ∧
    (cnrMatch (pyUpper (pyStrip cnr)) = false →
      download_case_pdf cnr = HttpResponse.mk 400 (httpErrorBody pdfCnrErrMsg)) ∧
    (cnrMatch (pyUpper (pyStrip cnr)) = true ↔ exOk (validate_cnr cnr) = true) := by
  refine ⟨?_, ?_, ?_⟩
  · intro h
    unfold download_case_pdf
    simp [h]
  · intro h
    unfold download_case_pdf
    simp [h]
  · unfold validate_cnr
    cases h : cnrMatch (pyUpper (pyStrip cnr)) <;> simp [h, exOk]

theorem c9_pdf_download_witness :
    download_case_pdf "DLSW010093242025" =
      HttpResponse.mk 200 (pdfBody "DLSW010093242025") ∧
    download_case_pdf "INVALID123CNR000" =
      HttpResponse.mk 400 (httpErrorBody pdfCnrErrMsg) := by
  constructor
  · have h := (c9_pdf_download "DLSW010093242025").1 (by decide)
    have e : pyUpper (pyStrip "DLSW010093242025") = "DLSW010093242025" := by decide
    rw [e] at h
    exact h
  · exact (c9_pdf_download "INVALID123CNR000").2.1 (by decide)

/-- Tests whether a fetch result is an escaping ValueError. -/
def isValueErrorRes {α : Type} : Except PyExc α → Bool
  | Except.error (PyExc.valueError _) => true
  | _ => false

/-- Tests whether a fetch result is a returned payload or an HTTPException. -/
def isOkOrHttpExc {α : Type} : Except PyExc α → Bool
  | Except.ok _ => true
  | Except.error (PyExc.httpExc _ _) => true
  | _ => false

/-- C10: the `except ValueError` branches of the /case/cnr and /case/details
handlers are unreachable: the fetch functions convert every internal failure
into an HTTPException and never let a ValueError escape, and the body
validators run during request parsing, so an invalid record number or case
type is answered 422 before the handler body ever executes. -/
theorem c10_value_error_branches_unreachable :
    (∀ cnr now net, isValueErrorRes (fetch_case_by_cnr cnr now net) = false) ∧
    (∀ cnr now net, isOkOrHttpExc (fetch_case_by_cnr cnr now net) = true) ∧
    (∀ t n y st dt cc now net,
      isValueErrorRes (fetch_case_by_details t n y st dt cc now net) = false) ∧
    (∀ t n y st dt cc now net,
      isOkOrHttpExc (fetch_case_by_details t n y st dt cc now net) = true) ∧
    (∀ cnr now net msg, validate_cnr cnr = Except.error msg →
      postCaseCnr cnr now net = resp422 msg) ∧
    (∀ t n y st dt cc now net msg, validate_case_type t = Except.error msg →
      postCaseDetails t n y st dt cc now net = resp422 msg) := by
  refine ⟨?_, ?_, ?_, ?_, ?_, ?_⟩
  · intro cnr now net
    cases net with
    | ok code =>
      unfold fetch_case_by_cnr
      dsimp only
      split_ifs <;> rfl
    | timeout => rfl
    | failure msg => rfl
  · intro cnr now net
    cases net with
    | ok code =>
      unfold fetch_case_by_cnr
      dsimp only
      split_ifs <;> rfl
    | timeout => rfl
    | failure msg => rfl
  · intro t n y st dt cc now net
    cases net with
    | ok code =>
      unfold fetch_case_by_details
      dsimp only
      split_ifs <;> rfl
    | timeout => rfl
    | failure msg => rfl
  · intro t n y st dt cc now net
    cases net with
    | ok code =>
      unfold fetch_case_by_details
      dsimp only
      split_ifs <;> rfl
    | timeout => rfl
    | failure msg => rfl
  · intro cnr now net msg h
    unfold postCaseCnr
    rw [h]
  · intro t n y st dt cc now net msg h
    unfold postCaseDetails
    rw [h]

theorem c10_value_error_branches_unreachable_witness :
    postCaseCnr "bad" now20250101 NetOutcome.timeout = resp422 cnrErrMsg ∧
    postCaseDetails "12x" 4 2025 "Delhi" "South West" "Dwarka Court Complex" now20250101
        NetOutcome.timeout = resp422 caseTypeErrMsg :=
  ⟨c10_value_error_branches_unreachable.2.2.2.2.1 "bad" now20250101 NetOutcome.timeout
      cnrErrMsg (by rfl),
   c10_value_error_branches_unreachable.2.2.2.2.2 "12x" 4 2025 "Delhi" "South West"
      "Dwarka Court Complex" now20250101 NetOutcome.timeout caseTypeErrMsg (by rfl)⟩
